import Mathlib

/-!
Verification development for the Easify repository: a shallow embedding of
the backend tool functions (`src/tools/...`, `src/utils/http_client.py`) and
of the messaging front-end's session/credential lifecycle
(`src/telegram_bot.py`), together with theorems about the specified
behaviour.

Python values flowing through the code (JSON bodies, session-state entries,
query parameters) are modelled by the inductive type `JValue`; Python dicts
by insertion-ordered association lists; the `requests` library by an
oracle `Backend : HttpRequest → HttpOutcome` so that a tool function's
behaviour can be analysed for every outcome of its HTTP call.
-/

set_option maxRecDepth 4000

namespace Easify

/-- A JSON-like Python value: `None`, bool, int, string, list or dict. -/
inductive JValue where
  | null
  | jbool (b : Bool)
  | jint (n : Int)
  | jstr (s : String)
  | jarr (xs : List JValue)
  | jobj (fields : List (String × JValue))

/-- A Python dict with string keys, as an insertion-ordered association list. -/
abbrev PyDict := List (String × JValue)

/-- Python `d[k]` / `d.get(k)` lookup: the value at the first matching key. -/
def dictGet : PyDict → String → Option JValue
  | [], _ => none
  | (k2, v) :: rest, k => if k2 = k then some v else dictGet rest k

/-- Python `d[k] = v`: overwrite the existing entry in place, else append. -/
def dictSet : PyDict → String → JValue → PyDict
  | [], k, v => [(k, v)]
  | (k2, v2) :: rest, k, v =>
      if k2 = k then (k, v) :: rest else (k2, v2) :: dictSet rest k v

/-- Python `d.update(delta)`: apply each of the delta's entries with `dictSet`. -/
def dictUpdate (d : PyDict) (delta : PyDict) : PyDict :=
  delta.foldl (fun acc kv => dictSet acc kv.1 kv.2) d

/-- Python truthiness of a value (`None`, `False`, `0`, `""`, `[]`, `{}` are falsy). -/
def pyTruthy : JValue → Bool
  | .null => false
  | .jbool b => b
  | .jint n => n != 0
  | .jstr s => s != ""
  | .jarr xs => !xs.isEmpty
  | .jobj fs => !fs.isEmpty

mutual

/-- Python `repr` of a value (used by `str` on containers). -/
def pyRepr : JValue → String
  | .null => "None"
  | .jbool true => "True"
  | .jbool false => "False"
  | .jint n => toString n
  | .jstr s => "\x27" ++ s ++ "\x27"
  | .jarr xs => "[" ++ String.intercalate ", " (pyReprList xs) ++ "]"
  | .jobj fs => "\x7b" ++ String.intercalate ", " (pyReprFields fs) ++ "\x7d"

/-- `repr` of each element of a list. -/
def pyReprList : List JValue → List String
  | [] => []
  | x :: xs => pyRepr x :: pyReprList xs

/-- `repr` of each `key: value` entry of a dict. -/
def pyReprFields : List (String × JValue) → List String
  | [] => []
  | (k, v) :: fs => ("\x27" ++ k ++ "\x27: " ++ pyRepr v) :: pyReprFields fs

end

/-- Python `str` of a value, as used by an f-string interpolation. -/
def pyStr : JValue → String
  | .jstr s => s
  | v => pyRepr v

/-- `str` of an optional value (`None` when the key was absent). -/
def pyStrOpt : Option JValue → String
  | none => "None"
  | some v => pyStr v

/-- Python `s.upper()` (ASCII, which covers every valid order status). -/
def pyUpper (s : String) : String :=
  String.mk (s.toList.map Char.toUpper)

/-- The whitespace characters Python's `str.split()` splits on. -/
def isPySpace (c : Char) : Bool :=
  c = ' ' || c = '\t' || c = '\n' || c = '\r' || c = '\x0b' || c = '\x0c'

/-- Worker for `pySplit`: `cur` holds the current token's characters reversed. -/
def pySplitGo : List Char → List Char → List String
  | [], [] => []
  | [], cur => [String.mk cur.reverse]
  | c :: rest, cur =>
      if isPySpace c then
        match cur with
        | [] => pySplitGo rest []
        | _ => String.mk cur.reverse :: pySplitGo rest []
      else pySplitGo rest (c :: cur)

/-- Python `s.split()` (no argument): split on runs of whitespace,
discarding leading and trailing whitespace; never yields empty tokens. -/
def pySplit (s : String) : List String :=
  pySplitGo s.toList []

/-- Worker for `pySplitOnChar`. -/
def pySplitOnCharGo (sep : Char) : List Char → List Char → List String
  | [], cur => [String.mk cur.reverse]
  | c :: rest, cur =>
      if c = sep then String.mk cur.reverse :: pySplitOnCharGo sep rest []
      else pySplitOnCharGo sep rest (c :: cur)

/-- Python `s.split(sep)` for a one-character separator: keeps empty segments. -/
def pySplitOnChar (sep : Char) (s : String) : List String :=
  pySplitOnCharGo sep s.toList []

/-- A Python exception that a modelled function may raise. -/
inductive PyExn where
  | httpError (code : Nat) (text : String)
  | netError (text : String)
  | keyError (key : String)
  | typeError (text : String)
  | indexError (text : String)
  deriving DecidableEq

/-- Python `str(e)` for a modelled exception (``str(KeyError(k))`` quotes the key). -/
def PyExn.str : PyExn → String
  | .httpError _ t => t
  | .netError t => t
  | .keyError k => "\x27" ++ k ++ "\x27"
  | .typeError t => t
  | .indexError t => t

/-- One HTTP request as built by a tool function. -/
structure HttpRequest where
  method : String
  url : String
  params : List (String × JValue)
  headers : List (String × String)
  jsonBody : Option JValue
  cookies : List (String × String)

/-- The outcome of performing one HTTP request: a 2xx response with a decoded
JSON body and response cookies, a non-2xx status (which makes
`raise_for_status` raise `HTTPError`, stringified as `text`), or a
network-level failure such as a timeout (stringified as `text`). -/
inductive HttpOutcome where
  | success (body : JValue) (respCookies : List (String × String))
  | httpError (code : Nat) (text : String)
  | netError (text : String)

/-- The remote server, as an oracle from requests to outcomes. -/
abbrev Backend := HttpRequest → HttpOutcome

/-- What a modelled Python function hands back to its caller: a returned
value, or an exception that escaped it. -/
inductive PyResult where
  | ret (v : JValue)
  | raised (e : PyExn)

/-- The observable behaviour of one tool-function call: the HTTP request it
performed (if it reached the call), the session state afterwards, and the
value returned or exception raised. -/
structure ToolRun where
  request : Option HttpRequest
  newState : PyDict
  result : PyResult

/-- The uniform error record `{"status": "error", "error_message": msg}`. -/
def errorRecord (msg : String) : JValue :=
  .jobj [("status", .jstr "error"), ("error_message", .jstr msg)]

/-- Python `v[k]` on a decoded JSON value: `KeyError` on a missing key,
`TypeError` when the value is not a dict. -/
def jIndex : JValue → String → Except PyExn JValue
  | .jobj fs, k =>
      match dictGet fs k with
      | some v => .ok v
      | none => .error (.keyError k)
  | _, k => .error (.typeError ("value is not subscriptable with key " ++ k))

/-- Python `v[i]` on a decoded JSON value expected to be a list. -/
def jArrIndex : JValue → Nat → Except PyExn JValue
  | .jarr xs, i =>
      match xs.get? i with
      | some v => .ok v
      | none => .error (.indexError "list index out of range")
  | _, _ => .error (.typeError "value is not indexable")

/-- `cookies.get(name)` on a response's cookie jar. -/
def cookieGet : List (String × String) → String → Option String
  | [], _ => none
  | (k2, v) :: rest, k => if k2 = k then some v else cookieGet rest k

/-! ## Content tools (`src/tools/content/flowers.py`) -/

def flowersUrl : String := "https://dev.api.oy-gul.uz/api/content/flowers"

def flowerTypesUrl : String := "https://dev.api.oy-gul.uz/api/content/flower-types/"

/-- `get_flowers` from `src/tools/content/flowers.py`. Reads `merchant_id`
and `branch_id` by item access (a `KeyError` is caught by the function's
`except Exception` and becomes the uniform error record), reads `lang` and
`bearer_token` with `.get`, adds each optional query parameter only when it
is not `None`, performs a GET, and returns the decoded body on 2xx or the
uniform error record on any failure. -/
def get_flowers (backend : Backend) (ctx : PyDict) (search : Option String)
    (flower_type_ids : Option (List String)) (flower_ids : Option (List String))
    (page : Option Int) (limit : Option Int) (sort : Option String) : ToolRun :=
  match dictGet ctx "merchant_id" with
  | none =>
      { request := none, newState := ctx,
        result := .ret (errorRecord ("Failed to get flowers: " ++ PyExn.str (.keyError "merchant_id"))) }
  | some merchant_id =>
  match dictGet ctx "branch_id" with
  | none =>
      { request := none, newState := ctx,
        result := .ret (errorRecord ("Failed to get flowers: " ++ PyExn.str (.keyError "branch_id"))) }
  | some branch_id =>
      let lang := dictGet ctx "lang"
      let token := dictGet ctx "bearer_token"
      let params : List (String × JValue) :=
        [("merchant_id", merchant_id), ("branch_id", branch_id)]
        ++ (match search with | some s => [("search", JValue.jstr s)] | none => [])
        ++ (match flower_type_ids with
            | some l => [("type_id", JValue.jarr (l.map JValue.jstr))] | none => [])
        ++ (match flower_ids with
            | some l => [("id", JValue.jarr (l.map JValue.jstr))] | none => [])
        ++ (match lang with | some .null => [] | some v => [("lang", v)] | none => [])
        ++ (match page with | some n => [("page", JValue.jint n)] | none => [])
        ++ (match limit with | some n => [("limit", JValue.jint n)] | none => [])
        ++ (match sort with | some s => [("sort", JValue.jstr s)] | none => [])
      let req : HttpRequest :=
        { method := "GET", url := flowersUrl, params := params,
          headers := [("Authorization", "Bearer " ++ pyStrOpt token)],
          jsonBody := none, cookies := [] }
      match backend req with
      | .success body _ => { request := some req, newState := ctx, result := .ret body }
      | .httpError _ t =>
          { request := some req, newState := ctx,
            result := .ret (errorRecord ("Failed to get flowers: " ++ t)) }
      | .netError t =>
          { request := some req, newState := ctx,
            result := .ret (errorRecord ("Failed to get flowers: " ++ t)) }

/-- The fixed record `delete_flower_type` returns on a 2xx response. -/
def deleteFlowerSuccessRecord (flower_type_id : String) : JValue :=
  .jobj [("status", .jstr "success"),
         ("message", .jstr ("flower_type " ++ flower_type_id ++ " deleted successfully."))]

/-- `delete_flower_type` from `src/tools/content/flowers.py`. Reads the
bearer token with `.get`, performs a DELETE, and on 2xx returns a fixed
`{"status": "success", "message": ...}` record (not the response body);
on any failure, the uniform error record. -/
def delete_flower_type (backend : Backend) (ctx : PyDict) (flower_type_id : String) : ToolRun :=
  let token := dictGet ctx "bearer_token"
  let req : HttpRequest :=
    { method := "DELETE", url := flowerTypesUrl ++ flower_type_id, params := [],
      headers := [("Authorization", "Bearer " ++ pyStrOpt token)],
      jsonBody := none, cookies := [] }
  match backend req with
  | .success _ _ =>
      { request := some req, newState := ctx,
        result := .ret (deleteFlowerSuccessRecord flower_type_id) }
  | .httpError _ t =>
      { request := some req, newState := ctx,
        result := .ret (errorRecord ("Failed to delete flower_type: " ++ t)) }
  | .netError t =>
      { request := some req, newState := ctx,
        result := .ret (errorRecord ("Failed to delete flower_type: " ++ t)) }

/-! ## Transaction tools (`src/tools/transaction/orders.py`) -/

def ordersUrl : String := "https://dev.api.oy-gul.uz/api/transaction/orders"

def paymentTypesUrl : String := "https://dev.api.oy-gul.uz/api/transaction/payment-types"

/-- `create_order` from `src/tools/transaction/orders.py`. Reads `user_id`,
`merchant_id`, `branch_id` and `bearer_token` by item access inside the
`try`, so a missing key becomes the uniform error record without any HTTP
call; otherwise POSTs the order payload. -/
def create_order (backend : Backend) (ctx : PyDict) (products : List JValue)
    (payment_type : String) (gift_card_note : Option String) : ToolRun :=
  match dictGet ctx "user_id" with
  | none =>
      { request := none, newState := ctx,
        result := .ret (errorRecord ("Failed to create order: " ++ PyExn.str (.keyError "user_id"))) }
  | some user_id =>
  match dictGet ctx "merchant_id" with
  | none =>
      { request := none, newState := ctx,
        result := .ret (errorRecord ("Failed to create order: " ++ PyExn.str (.keyError "merchant_id"))) }
  | some merchant_id =>
  match dictGet ctx "branch_id" with
  | none =>
      { request := none, newState := ctx,
        result := .ret (errorRecord ("Failed to create order: " ++ PyExn.str (.keyError "branch_id"))) }
  | some branch_id =>
  match dictGet ctx "bearer_token" with
  | none =>
      { request := none, newState := ctx,
        result := .ret (errorRecord ("Failed to create order: " ++ PyExn.str (.keyError "bearer_token"))) }
  | some token =>
      let payload : JValue := .jobj
        [("userId", user_id), ("merchantId", merchant_id), ("branchId", branch_id),
         ("paymentType", .jstr payment_type), ("products", .jarr products),
         ("giftCardNote", match gift_card_note with | some s => .jstr s | none => .null)]
      let req : HttpRequest :=
        { method := "POST", url := ordersUrl, params := [],
          headers := [("Authorization", "Bearer " ++ pyStr token)],
          jsonBody := some payload, cookies := [] }
      match backend req with
      | .success body _ => { request := some req, newState := ctx, result := .ret body }
      | .httpError _ t =>
          { request := some req, newState := ctx,
            result := .ret (errorRecord ("Failed to create order: " ++ t)) }
      | .netError t =>
          { request := some req, newState := ctx,
            result := .ret (errorRecord ("Failed to create order: " ++ t)) }

/-- `get_payment_types` from `src/tools/transaction/orders.py`. The
`Authorization` header is built from `tool_context.state["bearer_token"]`
BEFORE the `try` block, so a missing bearer token raises a `KeyError` to
the caller; otherwise a GET whose failure becomes the uniform error
record. -/
def get_payment_types (backend : Backend) (ctx : PyDict) : ToolRun :=
  match dictGet ctx "bearer_token" with
  | none =>
      { request := none, newState := ctx, result := .raised (.keyError "bearer_token") }
  | some token =>
      let req : HttpRequest :=
        { method := "GET", url := paymentTypesUrl, params := [],
          headers := [("Authorization", "Bearer " ++ pyStr token)],
          jsonBody := none, cookies := [] }
      match backend req with
      | .success body _ => { request := some req, newState := ctx, result := .ret body }
      | .httpError _ t =>
          { request := some req, newState := ctx,
            result := .ret (errorRecord ("Failed to get payment types: " ++ t)) }
      | .netError t =>
          { request := some req, newState := ctx,
            result := .ret (errorRecord ("Failed to get payment types: " ++ t)) }

def validOrderStatuses : List String := ["PENDING", "FAILED", "CANCELED", "REFUND", "SUCCESSFUL"]

/-- The text of the exception `get_orders_by_status` raises (into its own
handler) for a status outside `validOrderStatuses`. -/
def invalidStatusMsg (statusU : String) : String :=
  "Invalid status: " ++ statusU ++ ". Valid statuses are: " ++
    String.intercalate ", " validOrderStatuses

/-- `get_orders_by_status` from `src/tools/transaction/orders.py`.
Upper-cases the status; a status outside the valid set raises inside the
`try`, which the handler converts to the uniform error record without
building a request; otherwise the GET always carries `page` (default 1),
`limit` (default 20) and `transactionStatus`. -/
def get_orders_by_status (backend : Backend) (ctx : PyDict) (status : String)
    (page : Option Int) (limit : Option Int) : ToolRun :=
  let statusU := pyUpper status
  if validOrderStatuses.contains statusU then
    match dictGet ctx "bearer_token" with
    | none =>
        { request := none, newState := ctx,
          result := .ret (errorRecord ("Failed to get orders: " ++ PyExn.str (.keyError "bearer_token"))) }
    | some token =>
        let req : HttpRequest :=
          { method := "GET", url := ordersUrl,
            params := [("page", .jint (page.getD 1)), ("limit", .jint (limit.getD 20)),
                       ("transactionStatus", .jstr statusU)],
            headers := [("Authorization", "Bearer " ++ pyStr token)],
            jsonBody := none, cookies := [] }
        match backend req with
        | .success body _ => { request := some req, newState := ctx, result := .ret body }
        | .httpError _ t =>
            { request := some req, newState := ctx,
              result := .ret (errorRecord ("Failed to get orders: " ++ t)) }
        | .netError t =>
            { request := some req, newState := ctx,
              result := .ret (errorRecord ("Failed to get orders: " ++ t)) }
  else
    { request := none, newState := ctx,
      result := .ret (errorRecord ("Failed to get orders: " ++ invalidStatusMsg statusU)) }

/-! ## Auth (`src/tools/auth/auth.py`, `src/utils/http_client.py`) -/

def refreshUrl : String := "https://dev.api.oy-gul.uz/api/auth/refresh"

def loginUrl : String := "https://dev.api.oy-gul.uz/api/auth/login"

def usersUrl : String := "https://dev.api.oy-gul.uz/api/auth/users/"

def branchesUrl : String := "https://dev.api.oy-gul.uz/api/auth/branch/getAll?merchantId="

/-- The record `refresh_token` returns on failure: note the key is
`message`, not `error_message`. -/
def refreshErrorRecord (msg : String) : JValue :=
  .jobj [("status", .jstr "error"), ("message", .jstr msg)]

/-- The observable behaviour of one `refresh_token` call. -/
structure RefreshRun where
  request : Option HttpRequest
  newState : PyDict
  result : PyResult

/-- `refresh_token` from `src/tools/auth/auth.py`. POSTs the refresh cookie;
on 2xx updates the context state with the new `refresh_token` (response
cookie, `None` when absent) and `bearer_token` (`json()["data"]["token"]`)
and returns Python `None`; on any exception returns
`{"status": "error", "message": "error while refreshing the token ..."}`
with the state unchanged. -/
def refresh_token (backend : Backend) (ctx : PyDict) (token : String) : RefreshRun :=
  let req : HttpRequest :=
    { method := "POST", url := refreshUrl, params := [], headers := [],
      jsonBody := none, cookies := [("refreshToken", token)] }
  match backend req with
  | .success body respCookies =>
      (match (jIndex body "data" >>= fun d => jIndex d "token") with
       | .error e =>
           { request := some req, newState := ctx,
             result := .ret (refreshErrorRecord ("error while refreshing the token " ++ e.str)) }
       | .ok newTok =>
           let newRefresh : JValue :=
             match cookieGet respCookies "refreshToken" with
             | some s => .jstr s
             | none => .null
           { request := some req,
             newState := dictUpdate ctx [("refresh_token", newRefresh), ("bearer_token", newTok)],
             result := .ret .null })
  | .httpError _ t =>
      { request := some req, newState := ctx,
        result := .ret (refreshErrorRecord ("error while refreshing the token " ++ t)) }
  | .netError t =>
      { request := some req, newState := ctx,
        result := .ret (refreshErrorRecord ("error while refreshing the token " ++ t)) }

/-- `get_user` from `src/utils/http_client.py`: GET on the users endpoint;
`raise_for_status` propagates any failure to the caller. -/
def get_user (backend : Backend) (user_id : String) (token : JValue) : Except PyExn JValue :=
  let req : HttpRequest :=
    { method := "GET", url := usersUrl ++ user_id, params := [],
      headers := [("Authorization", "Bearer " ++ pyStr token)],
      jsonBody := none, cookies := [] }
  match backend req with
  | .success body _ => .ok body
  | .httpError c t => .error (.httpError c t)
  | .netError t => .error (.netError t)

/-- `get_branch_id_by_merchant_id` from `src/utils/http_client.py`:
GET on the branch list endpoint, then `json()["data"][0]["id"]`;
every failure propagates to the caller. -/
def get_branch_id_by_merchant_id (backend : Backend) (merchant_id : String)
    (token : JValue) : Except PyExn JValue :=
  let req : HttpRequest :=
    { method := "GET", url := branchesUrl ++ merchant_id, params := [],
      headers := [("Authorization", "Bearer " ++ pyStr token)],
      jsonBody := none, cookies := [] }
  match backend req with
  | .success body _ =>
      jIndex body "data" >>= fun d => jArrIndex d 0 >>= fun e => jIndex e "id"
  | .httpError c t => .error (.httpError c t)
  | .netError t => .error (.netError t)

/-- `login` from `src/utils/http_client.py`. POSTs the credentials; there is
no `try` anywhere in the chain, so `raise_for_status` (and any missing
response key) raises to the caller. On success it extracts `userId` and
`token` from `json()["data"]`, the refresh token from the response cookies,
then calls `get_user` and, when the user's `branchId` is falsy, falls back
to `get_branch_id_by_merchant_id`. -/
def http_login (backend : Backend) (username password : String) : Except PyExn PyDict :=
  let req : HttpRequest :=
    { method := "POST", url := loginUrl, params := [], headers := [],
      jsonBody := some (.jobj [("login", .jstr username), ("password", .jstr password)]),
      cookies := [] }
  match backend req with
  | .httpError c t => .error (.httpError c t)
  | .netError t => .error (.netError t)
  | .success body respCookies =>
      jIndex body "data" >>= fun dataV =>
      jIndex dataV "userId" >>= fun userIdV =>
      jIndex dataV "token" >>= fun tokenV =>
      let refreshV : JValue :=
        match cookieGet respCookies "refreshToken" with
        | some s => .jstr s
        | none => .null
      (match userIdV with
       | .jstr uid => .ok uid
       | _ => .error (.typeError "can only concatenate str")) >>= fun uid =>
      get_user backend uid tokenV >>= fun user_info =>
      jIndex user_info "merchantId" >>= fun merchantV =>
      jIndex user_info "branchId" >>= fun branchRaw =>
      (if pyTruthy branchRaw then Except.ok branchRaw
       else match merchantV with
            | .jstr mid => get_branch_id_by_merchant_id backend mid tokenV
            | _ => .error (.typeError "can only concatenate str")) >>= fun branchV =>
      .ok [("user_id", userIdV), ("bearer_token", tokenV), ("refresh_token", refreshV),
           ("merchant_id", merchantV), ("branch_id", branchV)]

/-! ## Messaging front end (`src/telegram_bot.py`) -/

/-- One stored session: its mutable key-value state. -/
structure Session where
  state : PyDict

/-- The in-memory session service, keyed by session id (the app name is the
fixed `"erp_agent"` and the session id `"telegram_" ++ user_id` determines
the user, so one key suffices). -/
abbrev SessionStore := List (String × Session)

def storeGet : SessionStore → String → Option Session
  | [], _ => none
  | (k2, v) :: rest, k => if k2 = k then some v else storeGet rest k

/-- `delete_session`: drop every entry with the given id. -/
def storeDelete (store : SessionStore) (sid : String) : SessionStore :=
  store.filter fun kv => !(kv.1 == sid)

def sessionId (userId : String) : String := "telegram_" ++ userId

/-- The credentials prompt `process_language_selection` sends, per language. -/
def credentialsPrompt (lang_code : String) : String :=
  if lang_code = "uz" then
    "Iltimos, login va parolingizni bir qatorda, bo\x27sh joy bilan ajratib yuboring."
  else if lang_code = "ru" then
    "Пожалуйста, отправьте ваш логин и пароль в одной строке, разделенные пробелом."
  else if lang_code = "en" then
    "Please send your login and password in one line, separated by a space."
  else
    "Please send your login and password in one line, separated by a space."

/-- `process_language_selection` from `src/telegram_bot.py`. Extracts the
language as `callback_query.data.split('_')[1]` (the dispatcher filter
guarantees the `lang_` prefix; `none` models the `IndexError` when the
index is absent), deletes the user's old session if one exists (deleting an
absent session is a no-op in this model), and creates a fresh session whose
state is exactly the chosen language and the awaiting-credentials flag;
returns the new store and the credentials prompt. -/
def process_language_selection (store : SessionStore) (userId : String)
    (callbackData : String) : Option (SessionStore × String) :=
  match (pySplitOnChar '_' callbackData).get? 1 with
  | none => none
  | some lang_code =>
      let sid := sessionId userId
      let store1 := storeDelete store sid
      let initial_state : PyDict :=
        [("user_language", .jstr lang_code), ("awaiting_credentials", .jbool true)]
      some (store1 ++ [(sid, ⟨initial_state⟩)], credentialsPrompt lang_code)

/-- The outcome of the `login(...)` call made by `credentials_handler`:
a successful response record, an `HTTPError`, or any other exception. -/
inductive LoginOutcome where
  | ok (user_id merchant_id branch_id bearer_token refresh_token : JValue)
  | httpErr (text : String)
  | exn (text : String)

/-- The observable behaviour of one `credentials_handler` run: the
credentials passed to `login` (if it was called), the state delta of the
event appended to the session (if any), and the reply sent to the user. -/
structure CredRun where
  loginCall : Option (String × String)
  stateDelta : Option PyDict
  reply : String

/-- `session.state.get("user_language", "en")`. -/
def langOf (st : PyDict) : JValue :=
  (dictGet st "user_language").getD (.jstr "en")

/-- Python `v == s` for a string literal `s` (false for non-string values). -/
def jIsStr (v : JValue) (s : String) : Bool :=
  match v with
  | .jstr t => t = s
  | _ => false

/-- The `if lang_code == "uz" ... elif "ru" ... else` reply selection. -/
def pickLang (lang : JValue) (uz ru en : String) : String :=
  if jIsStr lang "uz" then uz else if jIsStr lang "ru" then ru else en

/-- The malformed-credentials re-prompt, per session language. -/
def credFormatPrompt (lang : JValue) : String :=
  pickLang lang
    "Iltimos, login va parolni bo\x27sh joy bilan ajratib, bitta xabarda yuboring."
    "Пожалуйста, отправьте логин и пароль в одном сообщении, разделив их пробелом."
    "Please send the login and password in a single message, separated by a space."

/-- The successful-login reply, per session language. -/
def loginSuccessMsg (lang : JValue) : String :=
  pickLang lang
    "Rahmat! Siz tizimga muvaffaqiyatli kirdingiz. Endi savollaringizni berishingiz mumkin."
    "Спасибо! Вы успешно вошли в систему. Теперь вы можете задавать свои вопросы."
    "Thank you! You have successfully logged in. You can now ask your questions."

/-- The `except HTTPError` re-prompt, per session language. -/
def loginInvalidMsg (lang : JValue) : String :=
  pickLang lang
    "Login yoki parol noto\x27g\x27ri. Iltimos, qayta urinib ko\x27ring."
    "Неверный логин или пароль. Пожалуйста, попробуйте еще раз."
    "Invalid login or password. Please try again."

/-- The `except Exception` reply, per session language. -/
def loginExnMsg (lang : JValue) (e : String) : String :=
  pickLang lang
    ("Tizimga kirishda xatolik yuz berdi. Iltimos, keyinroq qayta urinib ko\x27ring. " ++ e)
    ("Произошла ошибка при входе в систему. Пожалуйста, повторите попытку позже. " ++ e)
    ("An error occurred while logging in. Please try again later. " ++ e)

/-- `credentials_handler` from `src/telegram_bot.py`. Splits the message
text with `str.split()`; unless that yields exactly two tokens it re-prompts
without touching the state or calling `login`. With two tokens it calls
`login`; on success it appends one event whose state delta carries the
language, clears the awaiting flag and merges the five login fields; on
`HTTPError` or any other exception it replies without a state change. -/
def credentials_handler (loginFn : String → String → LoginOutcome) (st : PyDict)
    (text : String) : CredRun :=
  let lang := langOf st
  match pySplit text with
  | [input_login, password] =>
      match loginFn input_login password with
      | .ok uid mid bid btok rtok =>
          { loginCall := some (input_login, password),
            stateDelta := some
              [("user_language", lang), ("awaiting_credentials", .jbool false),
               ("user_id", uid), ("merchant_id", mid), ("branch_id", bid),
               ("bearer_token", btok), ("refresh_token", rtok)],
            reply := loginSuccessMsg lang }
      | .httpErr _ =>
          { loginCall := some (input_login, password), stateDelta := none,
            reply := loginInvalidMsg lang }
      | .exn e =>
          { loginCall := some (input_login, password), stateDelta := none,
            reply := loginExnMsg lang e }
  | _ =>
      { loginCall := none, stateDelta := none, reply := credFormatPrompt lang }

/-- The session state after a `credentials_handler` run: unchanged when no
event was appended, else the state-delta merge. -/
def applyCred (st : PyDict) (r : CredRun) : PyDict :=
  match r.stateDelta with
  | none => st
  | some delta => dictUpdate st delta

/-- What `all_messages_handler` does with an incoming message: prompt for
`/start`, delegate to `credentials_handler`, answer "Please login first.",
or forward the text to the agent runtime. -/
inductive BotAction where
  | promptStart
  | handleCredentials
  | promptLogin
  | forward (query : String)
  deriving DecidableEq

/-- `all_messages_handler` from `src/telegram_bot.py`: the per-message
dispatch. No session, no `user_language` key, or a falsy language →
prompt to `/start`; a truthy `awaiting_credentials` → the credentials
handler; a missing `bearer_token` key → "Please login first."; otherwise
the message is forwarded to the agent runtime. -/
def all_messages_handler (sess : Option PyDict) (text : String) : BotAction :=
  match sess with
  | none => .promptStart
  | some st =>
      match dictGet st "user_language" with
      | none => .promptStart
      | some langV =>
          if !pyTruthy langV then .promptStart
          else if (match dictGet st "awaiting_credentials" with
                   | some v => pyTruthy v
                   | none => false) then .handleCredentials
          else
            match dictGet st "bearer_token" with
            | none => .promptLogin
            | some _ => .forward text

/-! ## Theorems -/

/-- Looking a session up after deleting its id and appending a fresh entry
under that id yields the fresh entry, whatever the store held before. -/
theorem storeGet_delete_append (store : SessionStore) (sid : String) (s : Session) :
    storeGet (storeDelete store sid ++ [(sid, s)]) sid = some s := by
  induction store with
  | nil => simp [storeDelete, storeGet]
  | cons kv rest ih =>
      by_cases hk : kv.1 = sid
      · simpa [storeDelete, hk] using ih
      · simpa [storeDelete, storeGet, hk] using ih

/-- C4: a language-selection callback discards any previous session of the
user and replaces it with a freshly created one whose state is exactly the
chosen language (`callback_query.data.split('_')[1]`) and the
awaiting-credentials flag set to true, and nothing else. -/
theorem C4_language_selection (store : SessionStore) (userId callbackData lang : String)
    (h : (pySplitOnChar '_' callbackData).get? 1 = some lang) :
    process_language_selection store userId callbackData
      = some (storeDelete store (sessionId userId)
                ++ [(sessionId userId,
                     ⟨[("user_language", .jstr lang), ("awaiting_credentials", .jbool true)]⟩)],
              credentialsPrompt lang)
    ∧ ∀ store2 reply,
        process_language_selection store userId callbackData = some (store2, reply) →
        storeGet store2 (sessionId userId)
          = some ⟨[("user_language", .jstr lang), ("awaiting_credentials", .jbool true)]⟩ := by
  have hmain : process_language_selection store userId callbackData
      = some (storeDelete store (sessionId userId)
                ++ [(sessionId userId,
                     ⟨[("user_language", .jstr lang), ("awaiting_credentials", .jbool true)]⟩)],
              credentialsPrompt lang) := by
    unfold process_language_selection
    rw [h]
  refine ⟨hmain, ?_⟩
  intro store2 reply h2
  rw [hmain] at h2
  obtain ⟨h3, _⟩ := Prod.mk.injEq .. ▸ Option.some.injEq .. ▸ h2
  rw [← h3]
  exact storeGet_delete_append store (sessionId userId) _

/-- C4 witness: selecting "ru" for a user who already had a session yields a
session whose state is exactly user_language = "ru",
awaiting_credentials = true. -/
theorem C4_language_selection_witness :
    process_language_selection
        [(sessionId "42", ⟨[("user_language", .jstr "en")]⟩)] "42" "lang_ru"
      = some (storeDelete [(sessionId "42", ⟨[("user_language", .jstr "en")]⟩)] (sessionId "42")
                ++ [(sessionId "42",
                     ⟨[("user_language", .jstr "ru"), ("awaiting_credentials", .jbool true)]⟩)],
              credentialsPrompt "ru")
    ∧ ∀ store2 reply,
        process_language_selection
            [(sessionId "42", ⟨[("user_language", .jstr "en")]⟩)] "42" "lang_ru"
          = some (store2, reply) →
        storeGet store2 (sessionId "42")
          = some ⟨[("user_language", .jstr "ru"), ("awaiting_credentials", .jbool true)]⟩ :=
  C4_language_selection _ "42" "lang_ru" "ru" (by rfl)

/-- C5: a two-token credentials message while awaiting credentials calls
`login` with exactly those two tokens and, on success, appends a single
state-delta event that merges in the user, merchant and branch identifiers
and both tokens and sets `awaiting_credentials` to false. -/
theorem C5_credentials_success (loginFn : String → String → LoginOutcome)
    (st : PyDict) (text l p : String) (uid mid bid btok rtok : JValue)
    (hsplit : pySplit text = [l, p])
    (hlogin : loginFn l p = .ok uid mid bid btok rtok) :
    credentials_handler loginFn st text =
      { loginCall := some (l, p),
        stateDelta := some
          [("user_language", langOf st), ("awaiting_credentials", .jbool false),
           ("user_id", uid), ("merchant_id", mid), ("branch_id", bid),
           ("bearer_token", btok), ("refresh_token", rtok)],
        reply := loginSuccessMsg (langOf st) } := by
  simp only [credentials_handler, hsplit, hlogin]

/-- C5 witness: "alice secret" calls login with ("alice", "secret") and on
success the single appended delta merges the identifiers and both tokens
and clears the awaiting flag. -/
theorem C5_credentials_success_witness :
    credentials_handler
        (fun _ _ => .ok (.jstr "u1") (.jstr "m1") (.jstr "b1") (.jstr "tok") (.jstr "ref"))
        [("user_language", .jstr "ru"), ("awaiting_credentials", .jbool true)]
        "alice secret" =
      { loginCall := some ("alice", "secret"),
        stateDelta := some
          [("user_language", .jstr "ru"), ("awaiting_credentials", .jbool false),
           ("user_id", .jstr "u1"), ("merchant_id", .jstr "m1"), ("branch_id", .jstr "b1"),
           ("bearer_token", .jstr "tok"), ("refresh_token", .jstr "ref")],
        reply := loginSuccessMsg (.jstr "ru") } :=
  C5_credentials_success _ _ "alice secret" "alice" "secret" _ _ _ _ _ (by rfl) (by rfl)

/-- C6: a credentials message that does not split into exactly two tokens
triggers no login call, appends no event (the session state is unchanged),
and re-prompts in the session's language. -/
theorem C6_credentials_malformed (loginFn : String → String → LoginOutcome)
    (st : PyDict) (text : String) (h : (pySplit text).length ≠ 2) :
    credentials_handler loginFn st text =
      { loginCall := none, stateDelta := none, reply := credFormatPrompt (langOf st) }
    ∧ applyCred st (credentials_handler loginFn st text) = st := by
  have hmain : credentials_handler loginFn st text =
      { loginCall := none, stateDelta := none, reply := credFormatPrompt (langOf st) } := by
    unfold credentials_handler
    cases hsp : pySplit text with
    | nil => rfl
    | cons a tl =>
      cases tl with
      | nil => rfl
      | cons b tl2 =>
        cases tl2 with
        | nil => exact absurd (by rw [hsp]; rfl) h
        | cons c tl3 => rfl
  exact ⟨hmain, by rw [hmain]; rfl⟩

/-- C6 witness: a one-token message in a Russian-language session is
re-prompted in Russian with no login call and no state change. -/
theorem C6_credentials_malformed_witness :
    credentials_handler (fun _ _ => .httpErr "unused")
        [("user_language", .jstr "ru"), ("awaiting_credentials", .jbool true)] "onlyone" =
      { loginCall := none, stateDelta := none,
        reply := "Пожалуйста, отправьте логин и пароль в одном сообщении, разделив их пробелом." }
    ∧ applyCred [("user_language", .jstr "ru"), ("awaiting_credentials", .jbool true)]
        (credentials_handler (fun _ _ => .httpErr "unused")
          [("user_language", .jstr "ru"), ("awaiting_credentials", .jbool true)] "onlyone")
      = [("user_language", .jstr "ru"), ("awaiting_credentials", .jbool true)] :=
  C6_credentials_malformed _ _ "onlyone" (by decide)

/-- C7: when the remote login call fails with an HTTP error, no state-delta
event is appended (the session state, including the awaiting flag, is
unchanged) and the user is re-prompted in the session's language. -/
theorem C7_login_failure (loginFn : String → String → LoginOutcome)
    (st : PyDict) (text l p s : String)
    (hsplit : pySplit text = [l, p]) (hlogin : loginFn l p = .httpErr s) :
    credentials_handler loginFn st text =
      { loginCall := some (l, p), stateDelta := none, reply := loginInvalidMsg (langOf st) }
    ∧ applyCred st (credentials_handler loginFn st text) = st := by
  have hmain : credentials_handler loginFn st text =
      { loginCall := some (l, p), stateDelta := none, reply := loginInvalidMsg (langOf st) } := by
    simp only [credentials_handler, hsplit, hlogin]
  exact ⟨hmain, by rw [hmain]; rfl⟩

/-- C7 witness: a 401 on "alice wrong" in a Russian-language session leaves
the state unchanged and replies with the Russian re-prompt. -/
theorem C7_login_failure_witness :
    credentials_handler (fun _ _ => .httpErr "401 Client Error")
        [("user_language", .jstr "ru"), ("awaiting_credentials", .jbool true)] "alice wrong" =
      { loginCall := some ("alice", "wrong"), stateDelta := none,
        reply := "Неверный логин или пароль. Пожалуйста, попробуйте еще раз." }
    ∧ applyCred [("user_language", .jstr "ru"), ("awaiting_credentials", .jbool true)]
        (credentials_handler (fun _ _ => .httpErr "401 Client Error")
          [("user_language", .jstr "ru"), ("awaiting_credentials", .jbool true)] "alice wrong")
      = [("user_language", .jstr "ru"), ("awaiting_credentials", .jbool true)] :=
  C7_login_failure _ _ "alice wrong" "alice" "wrong" "401 Client Error" (by rfl) (by rfl)

/-- C8: when a session's state lacks the `bearer_token` key, the message
dispatcher never forwards the user's message to the agent runtime (so no
authenticated tool call can be triggered). -/
theorem C8_missing_token_blocks (st : PyDict) (text q : String)
    (h : dictGet st "bearer_token" = none) :
    all_messages_handler (some st) text ≠ BotAction.forward q := by
  unfold all_messages_handler
  cases hl : dictGet st "user_language" with
  | none => simp [hl]
  | some langV =>
    cases ht : pyTruthy langV with
    | false => simp [hl, ht]
    | true =>
      cases ha : dictGet st "awaiting_credentials" with
      | none => simp [hl, ht, ha, h]
      | some av =>
        cases hav : pyTruthy av with
        | false => simp [hl, ht, ha, hav, h]
        | true => simp [hl, ht, ha, hav]

/-- C8 witness: a language-configured session without a bearer token does
not get its message forwarded to the agent. -/
theorem C8_missing_token_blocks_witness :
    all_messages_handler (some [("user_language", .jstr "ru")]) "list my flowers"
      ≠ BotAction.forward "list my flowers" :=
  C8_missing_token_blocks _ "list my flowers" "list my flowers" (by rfl)

/-- C10: the credentials gate is exactly "`str.split()` (split on arbitrary
runs of whitespace) yields two tokens", and those two tokens are what is
passed to `login`; tabs, newlines, repeated and leading/trailing whitespace
are all tolerated as separators. -/
theorem C10_whitespace_tokenization :
    (∀ (loginFn : String → String → LoginOutcome) (st : PyDict) (text : String),
        (credentials_handler loginFn st text).loginCall =
          (match pySplit text with
           | [input_login, password] => some (input_login, password)
           | _ => none))
    ∧ pySplit "  alice\t\nsecret\r " = ["alice", "secret"]
    ∧ pySplit "a \t b" = ["a", "b"]
    ∧ pySplit "alice secret extra" = ["alice", "secret", "extra"]
    ∧ pySplit "  alice  " = ["alice"] := by
  refine ⟨?_, rfl, rfl, rfl, rfl⟩
  intro f st text
  unfold credentials_handler
  cases hsp : pySplit text with
  | nil => rfl
  | cons a tl =>
    cases tl with
    | nil => rfl
    | cons b tl2 =>
      cases tl2 with
      | nil => cases hlf : f a b <;> simp [hsp, hlf]
      | cons c tl3 => rfl

/-- C1 counterexample: the claimed uniform contract fails at concrete
inputs. `login` propagates an `HTTPError` to its caller instead of
returning an error record; `delete_flower_type` on a 2xx response returns a
fixed `{"status": "success", "message": ...}` record, not the decoded
response body; and `refresh_token` returns its error text under the key
`message`, not `error_message`. -/
theorem C1_counterexample :
    http_login (fun _ => .httpError 401 "401 Client Error: Unauthorized") "alice" "secret"
      = .error (.httpError 401 "401 Client Error: Unauthorized")
    ∧ (delete_flower_type (fun _ => .success (.jobj [("data", .jint 1)]) [])
        [("bearer_token", .jstr "T")] "t1").result = .ret (deleteFlowerSuccessRecord "t1")
    ∧ (delete_flower_type (fun _ => .success (.jobj [("data", .jint 1)]) [])
        [("bearer_token", .jstr "T")] "t1").result ≠ .ret (.jobj [("data", .jint 1)])
    ∧ (refresh_token (fun _ => .httpError 401 "unauthorized")
        [("bearer_token", .jstr "old")] "rt").result
      = .ret (.jobj [("status", .jstr "error"),
                     ("message", .jstr "error while refreshing the token unauthorized")]) := by
  refine ⟨rfl, rfl, ?_, rfl⟩
  simp [delete_flower_type, deleteFlowerSuccessRecord]

/-- C1 amended: the CRUD tool functions (represented here by `get_flowers`)
return the decoded JSON body verbatim on a 2xx response and the uniform
`{status: "error", error_message}` record on any failure, and never raise;
but the client functions in `http_client.py` (represented by `login`)
propagate exceptions to their caller, `delete_flower_type` returns a fixed
success record instead of the body, `refresh_token`'s failure record uses
the key `message`, and `get_payment_types` raises `KeyError` when the
context has no `bearer_token`. -/
theorem C1_amended :
    (∀ (ctx : PyDict) (m b : JValue) (search : Option String)
        (fti fi : Option (List String)) (page limit : Option Int) (sort : Option String),
        dictGet ctx "merchant_id" = some m → dictGet ctx "branch_id" = some b →
        ((∀ body ck,
            (get_flowers (fun _ => .success body ck) ctx search fti fi page limit sort).result
              = .ret body)
         ∧ (∀ c t,
            (get_flowers (fun _ => .httpError c t) ctx search fti fi page limit sort).result
              = .ret (errorRecord ("Failed to get flowers: " ++ t)))
         ∧ (∀ t,
            (get_flowers (fun _ => .netError t) ctx search fti fi page limit sort).result
              = .ret (errorRecord ("Failed to get flowers: " ++ t)))))
    ∧ (∀ (out : HttpOutcome) (ctx : PyDict) search fti fi page limit sort,
        ∃ v, (get_flowers (fun _ => out) ctx search fti fi page limit sort).result = .ret v)
    ∧ (∀ (out : HttpOutcome) (ctx : PyDict) fid,
        ∃ v, (delete_flower_type (fun _ => out) ctx fid).result = .ret v)
    ∧ (∀ (ctx : PyDict) fid body ck,
        (delete_flower_type (fun _ => .success body ck) ctx fid).result
          = .ret (deleteFlowerSuccessRecord fid))
    ∧ (∀ (ctx : PyDict) tok c t,
        (refresh_token (fun _ => .httpError c t) ctx tok).result
          = .ret (refreshErrorRecord ("error while refreshing the token " ++ t))
        ∧ (refresh_token (fun _ => .httpError c t) ctx tok).newState = ctx)
    ∧ (∀ u p c t, http_login (fun _ => .httpError c t) u p = .error (.httpError c t))
    ∧ (∀ (backend : Backend) (ctx : PyDict), dictGet ctx "bearer_token" = none →
        (get_payment_types backend ctx).result = .raised (.keyError "bearer_token")) := by
  refine ⟨?_, ?_, ?_, ?_, ?_, ?_, ?_⟩
  · intro ctx m b search fti fi page limit sort hm hb
    refine ⟨fun body ck => ?_, fun c t => ?_, fun t => ?_⟩ <;>
      · unfold get_flowers
        rw [hm, hb]
  · intro out ctx s fti fi p l so
    cases hm : dictGet ctx "merchant_id" with
    | none => exact ⟨_, by unfold get_flowers; rw [hm]⟩
    | some m =>
      cases hb : dictGet ctx "branch_id" with
      | none => exact ⟨_, by unfold get_flowers; rw [hm, hb]⟩
      | some b =>
        cases out with
        | success body ck => exact ⟨body, by unfold get_flowers; rw [hm, hb]⟩
        | httpError c t => exact ⟨_, by unfold get_flowers; rw [hm, hb]⟩
        | netError t => exact ⟨_, by unfold get_flowers; rw [hm, hb]⟩
  · intro out ctx fid
    cases out with
    | success body ck => exact ⟨_, rfl⟩
    | httpError c t => exact ⟨_, rfl⟩
    | netError t => exact ⟨_, rfl⟩
  · intro ctx fid body ck
    rfl
  · intro ctx tok c t
    exact ⟨rfl, rfl⟩
  · intro u p c t
    rfl
  · intro backend ctx h
    unfold get_payment_types
    rw [h]

/-- C1 amended, witness: a successful `get_flowers` call hands back the
decoded body verbatim. -/
theorem C1_amended_witness :
    (get_flowers (fun _ => .success (.jobj [("items", .jarr [])]) [])
      [("merchant_id", .jstr "m"), ("branch_id", .jstr "b")]
      none none none none none (some "updatedAt-desc")).result
      = .ret (.jobj [("items", .jarr [])]) :=
  (C1_amended.1 [("merchant_id", .jstr "m"), ("branch_id", .jstr "b")]
    (.jstr "m") (.jstr "b") none none none none none (some "updatedAt-desc")
    rfl rfl).1 (.jobj [("items", .jarr [])]) []

/-- C2 counterexample: with no optional argument supplied,
`get_orders_by_status` still sends `page=1` and `limit=20` (substituted
defaults) and `get_flowers` still sends `sort=updatedAt-desc` (the default
binding of its `sort` parameter), so those query parameters are not
omitted. -/
theorem C2_counterexample :
    (get_orders_by_status (fun _ => .netError "connection timed out")
      [("bearer_token", .jstr "T")] "PENDING" none none).request
      = some { method := "GET", url := ordersUrl,
               params := [("page", .jint 1), ("limit", .jint 20),
                          ("transactionStatus", .jstr "PENDING")],
               headers := [("Authorization", "Bearer T")], jsonBody := none, cookies := [] }
    ∧ (get_flowers (fun _ => .netError "connection timed out")
        [("merchant_id", .jstr "m"), ("branch_id", .jstr "b")]
        none none none none none (some "updatedAt-desc")).request
      = some { method := "GET", url := flowersUrl,
               params := [("merchant_id", .jstr "m"), ("branch_id", .jstr "b"),
                          ("sort", .jstr "updatedAt-desc")],
               headers := [("Authorization", "Bearer None")], jsonBody := none, cookies := [] } :=
  ⟨rfl, rfl⟩

/-- C2 amended: in `get_flowers` the unsupplied optional `search`, type-id
and id filters, `page` and `limit` are omitted from the query entirely, but
the `sort` parameter is always sent (defaulting to `updatedAt-desc`), and in
`get_orders_by_status` unsupplied `page` and `limit` are sent with the
default values 1 and 20. -/
theorem C2_amended :
    (∀ (ctx : PyDict) (m b : JValue) (out : HttpOutcome),
        dictGet ctx "merchant_id" = some m → dictGet ctx "branch_id" = some b →
        dictGet ctx "lang" = none →
        (get_flowers (fun _ => out) ctx none none none none none
            (some "updatedAt-desc")).request
          = some { method := "GET", url := flowersUrl,
                   params := [("merchant_id", m), ("branch_id", b),
                              ("sort", .jstr "updatedAt-desc")],
                   headers := [("Authorization",
                                "Bearer " ++ pyStrOpt (dictGet ctx "bearer_token"))],
                   jsonBody := none, cookies := [] })
    ∧ (∀ (ctx : PyDict) (tok : JValue) (out : HttpOutcome) (status : String),
        dictGet ctx "bearer_token" = some tok →
        validOrderStatuses.contains (pyUpper status) = true →
        (get_orders_by_status (fun _ => out) ctx status none none).request
          = some { method := "GET", url := ordersUrl,
                   params := [("page", .jint 1), ("limit", .jint 20),
                              ("transactionStatus", .jstr (pyUpper status))],
                   headers := [("Authorization", "Bearer " ++ pyStr tok)],
                   jsonBody := none, cookies := [] }) := by
  constructor
  · intro ctx m b out hm hb hl
    cases out <;>
      · unfold get_flowers
        rw [hm, hb, hl]
        rfl
  · intro ctx tok out status htok hvalid
    cases out <;>
      · unfold get_orders_by_status
        simp only [hvalid, htok, if_true]
        rfl

/-- C2 amended, witness: the default-argument requests at a concrete
context. -/
theorem C2_amended_witness :
    (get_orders_by_status (fun _ => .netError "x")
      [("bearer_token", .jstr "T")] "pending" none none).request
      = some { method := "GET", url := ordersUrl,
               params := [("page", .jint 1), ("limit", .jint 20),
                          ("transactionStatus", .jstr (pyUpper "pending"))],
               headers := [("Authorization", "Bearer T")], jsonBody := none, cookies := [] } :=
  C2_amended.2 [("bearer_token", .jstr "T")] (.jstr "T") (.netError "x") "pending" rfl (by rfl)

/-- C3 counterexample: with `bearer_token` absent from the session context,
`get_payment_types` performs no HTTP request at all and raises `KeyError`
to its caller (its `Authorization` header is built before the `try`), and
`create_order` performs no HTTP request either, returning the uniform error
record instead — neither proceeds unauthenticated. -/
theorem C3_counterexample :
    (get_payment_types (fun _ => .netError "unused") []).request = none
    ∧ (get_payment_types (fun _ => .netError "unused") []).result
        = .raised (.keyError "bearer_token")
    ∧ (create_order (fun _ => .netError "unused")
        [("user_id", .jstr "u"), ("merchant_id", .jstr "m"), ("branch_id", .jstr "b")]
        [] "CASH" none).request = none
    ∧ (create_order (fun _ => .netError "unused")
        [("user_id", .jstr "u"), ("merchant_id", .jstr "m"), ("branch_id", .jstr "b")]
        [] "CASH" none).result
        = .ret (errorRecord ("Failed to create order: " ++ PyExn.str (.keyError "bearer_token"))) :=
  ⟨rfl, rfl, rfl, rfl⟩

/-- C3 amended: the content tools read the bearer token with `.get` and,
when it is absent, still build and perform their HTTP request with header
`Authorization: Bearer None` (shown for `get_flowers` and
`delete_flower_type`); but the transaction tools read
`state["bearer_token"]` by item access, so with the token absent
`get_payment_types` raises `KeyError` without any HTTP call and
`create_order` returns the uniform error record without any HTTP call. -/
theorem C3_amended :
    (∀ (ctx : PyDict) (m b : JValue) (out : HttpOutcome),
        dictGet ctx "merchant_id" = some m → dictGet ctx "branch_id" = some b →
        dictGet ctx "lang" = none → dictGet ctx "bearer_token" = none →
        (get_flowers (fun _ => out) ctx none none none none none
            (some "updatedAt-desc")).request
          = some { method := "GET", url := flowersUrl,
                   params := [("merchant_id", m), ("branch_id", b),
                              ("sort", .jstr "updatedAt-desc")],
                   headers := [("Authorization", "Bearer None")],
                   jsonBody := none, cookies := [] })
    ∧ (∀ (ctx : PyDict) (out : HttpOutcome) (fid : String),
        dictGet ctx "bearer_token" = none →
        (delete_flower_type (fun _ => out) ctx fid).request
          = some { method := "DELETE", url := flowerTypesUrl ++ fid, params := [],
                   headers := [("Authorization", "Bearer None")],
                   jsonBody := none, cookies := [] })
    ∧ (∀ (backend : Backend) (ctx : PyDict), dictGet ctx "bearer_token" = none →
        (get_payment_types backend ctx).request = none
        ∧ (get_payment_types backend ctx).result = .raised (.keyError "bearer_token"))
    ∧ (∀ (backend : Backend) (ctx : PyDict) (u m b : JValue) prods pt note,
        dictGet ctx "user_id" = some u → dictGet ctx "merchant_id" = some m →
        dictGet ctx "branch_id" = some b → dictGet ctx "bearer_token" = none →
        (create_order backend ctx prods pt note).request = none
        ∧ (create_order backend ctx prods pt note).result
            = .ret (errorRecord ("Failed to create order: "
                ++ PyExn.str (.keyError "bearer_token")))) := by
  refine ⟨?_, ?_, ?_, ?_⟩
  · intro ctx m b out hm hb hl hbt
    cases out <;>
      · unfold get_flowers
        rw [hm, hb, hl, hbt]
        rfl
  · intro ctx out fid hbt
    cases out <;>
      · unfold delete_flower_type
        rw [hbt]
        rfl
  · intro backend ctx hbt
    constructor <;>
      · unfold get_payment_types
        rw [hbt]
  · intro backend ctx u m b prods pt note hu hm hb hbt
    constructor <;>
      · unfold create_order
        rw [hu, hm, hb, hbt]

/-- C3 amended, witness: at a concrete token-less context, `get_flowers`
still performs its request with `Authorization: Bearer None`. -/
theorem C3_amended_witness :
    (get_flowers (fun _ => .netError "down")
      [("merchant_id", .jstr "m"), ("branch_id", .jstr "b")]
      none none none none none (some "updatedAt-desc")).request
      = some { method := "GET", url := flowersUrl,
               params := [("merchant_id", .jstr "m"), ("branch_id", .jstr "b"),
                          ("sort", .jstr "updatedAt-desc")],
               headers := [("Authorization", "Bearer None")],
               jsonBody := none, cookies := [] } :=
  C3_amended.1 [("merchant_id", .jstr "m"), ("branch_id", .jstr "b")]
    (.jstr "m") (.jstr "b") (.netError "down") rfl rfl rfl rfl

/-- C9 counterexample: an invalid order status is rejected before any HTTP
request, but the rejection message is a fixed English-language error
record: at the concrete invalid status "FOO" it is byte-for-byte identical
for a Russian-language and an Uzbek-language session, so it is not
localized. -/
theorem C9_counterexample :
    (get_orders_by_status (fun _ => .netError "unused")
      [("user_language", .jstr "ru"), ("bearer_token", .jstr "T")] "FOO" none none).request
      = none
    ∧ (get_orders_by_status (fun _ => .netError "unused")
        [("user_language", .jstr "ru"), ("bearer_token", .jstr "T")] "FOO" none none).result
      = .ret (errorRecord "Failed to get orders: Invalid status: FOO. Valid statuses are: PENDING, FAILED, CANCELED, REFUND, SUCCESSFUL")
    ∧ (get_orders_by_status (fun _ => .netError "unused")
        [("user_language", .jstr "ru"), ("bearer_token", .jstr "T")] "FOO" none none).result
      = (get_orders_by_status (fun _ => .netError "unused")
          [("user_language", .jstr "uz"), ("bearer_token", .jstr "T")] "FOO" none none).result :=
  ⟨rfl, rfl, rfl⟩

/-- C9 amended: a status outside the valid set (after upper-casing) is
rejected before any HTTP request is made and without mutating the session
state, with a fixed English-language error record (independent of the
session's language) rather than a localized message. -/
theorem C9_amended (backend : Backend) (ctx : PyDict) (status : String)
    (page limit : Option Int)
    (h : validOrderStatuses.contains (pyUpper status) = false) :
    (get_orders_by_status backend ctx status page limit).request = none
    ∧ (get_orders_by_status backend ctx status page limit).result
        = .ret (errorRecord ("Failed to get orders: " ++ invalidStatusMsg (pyUpper status)))
    ∧ (get_orders_by_status backend ctx status page limit).newState = ctx := by
  refine ⟨?_, ?_, ?_⟩ <;>
    · unfold get_orders_by_status
      simp only [h, Bool.false_eq_true, if_false]

/-- C9 amended, witness: the concrete invalid status "FOO". -/
theorem C9_amended_witness :
    (get_orders_by_status (fun _ => .netError "unused")
      [("user_language", .jstr "ru"), ("bearer_token", .jstr "T")] "FOO" none none).request
      = none
    ∧ (get_orders_by_status (fun _ => .netError "unused")
        [("user_language", .jstr "ru"), ("bearer_token", .jstr "T")] "FOO" none none).result
      = .ret (errorRecord ("Failed to get orders: " ++ invalidStatusMsg (pyUpper "FOO")))
    ∧ (get_orders_by_status (fun _ => .netError "unused")
        [("user_language", .jstr "ru"), ("bearer_token", .jstr "T")] "FOO" none none).newState
      = [("user_language", .jstr "ru"), ("bearer_token", .jstr "T")] :=
  C9_amended (fun _ => .netError "unused")
    [("user_language", .jstr "ru"), ("bearer_token", .jstr "T")] "FOO" none none (by rfl)

end Easify
